import Mathlib

/-
Verification of the generation–validation–refinement loop of the BioinfoMCP
repository.

The embedding models text as `List Char`.  The relevant Python operations
(`re.search` / `re.match` with the concrete patterns used by the source,
`str.strip`, the `in` substring test) are embedded as explicit scanning
functions whose semantics matches the regex engine's leftmost / non-greedy
behaviour for those concrete patterns.

The external Python syntax checker `ast.parse` (standard library, outside the
repository) is modelled as an oracle parameter `pc : PyCheck`: `pc code = none`
means `ast.parse(code)` succeeds, `pc code = some e` means it raises
`SyntaxError` whose `str()` is `e` — exactly the two outcomes the source's
`try/except SyntaxError` distinguishes.  The generation backend is likewise
external and is modelled by the list of raw completions it returns.
-/

set_option maxRecDepth 20000

/-- Conversion from a Lean string literal to the `List Char` text model. -/
def s (x : String) : List Char := x.data

/-- Python regex `\s` / `str.strip` whitespace on ASCII text:
space, tab, newline, carriage return, vertical tab, form feed. -/
def isPySpace (c : Char) : Bool :=
  c == ' ' || c == '\t' || c == '\n' || c == '\r' || c == Char.ofNat 11 || c == Char.ofNat 12

/-- Left trim, as in Python `str.lstrip()`. -/
def ltrim (l : List Char) : List Char := l.dropWhile isPySpace

/-- Right trim, as in Python `str.rstrip()`. -/
def rtrim (l : List Char) : List Char := (ltrim l.reverse).reverse

/-- Python `str.strip()`. -/
def pyStrip (l : List Char) : List Char := ltrim (rtrim l)

/-- Python substring test `needle in hay`. -/
def containsSub (n : List Char) : List Char → Bool
  | [] => n.isEmpty
  | h :: t => n.isPrefixOf (h :: t) || containsSub n t

/-- Text after the first occurrence of `n`, or `none` when `n` does not occur.
This is the tail of a leftmost regex match of the literal `n`. -/
def afterSub (n : List Char) : List Char → Option (List Char)
  | [] => if n.isEmpty then some [] else none
  | h :: t => if n.isPrefixOf (h :: t) then some ((h :: t).drop n.length) else afterSub n t

/-- Text before the first occurrence of `n`, or `none` when `n` does not occur.
This is the non-greedy group of `(.*?)n` at the leftmost match. -/
def takeBeforeSub (n : List Char) : List Char → Option (List Char)
  | [] => if n.isEmpty then some [] else none
  | h :: t => if n.isPrefixOf (h :: t) then some [] else (takeBeforeSub n t).map (h :: ·)

/-- Text before the first occurrence of `stop`, or the whole text when `stop`
does not occur: the non-greedy group of `(.*?)(?:stop|$)` in DOTALL mode
(the `$` variant differs from the whole text only by a trailing newline,
which the source always removes with `.strip()` right after). -/
def takeUntilSub (stop : List Char) : List Char → List Char
  | [] => []
  | h :: t => if stop.isPrefixOf (h :: t) then [] else h :: takeUntilSub stop t

/-- Length of the longest all-whitespace prefix. -/
def wsPrefixLen : List Char → Nat
  | [] => 0
  | c :: t => if isPySpace c then wsPrefixLen t + 1 else 0

/-- Backtracking search for `\s*\n(.*?)\n---` in `rest` (the text after the
leading `---`): the engine consumes the longest whitespace run whose next
character completes `\n` and after which the closing `\n---` still occurs;
`j` is the candidate index of the consumed `\n`, tried from high to low. -/
def fmScanAux (rest : List Char) : Nat → Option (List Char)
  | 0 =>
    if rest.get? 0 = some '\n' then takeBeforeSub (s ("\n---")) (rest.drop 1) else none
  | j + 1 =>
    match (if rest.get? (j + 1) = some '\n' then
             takeBeforeSub (s ("\n---")) (rest.drop (j + 2)) else none) with
    | some g => some g
    | none => fmScanAux rest j

/-- The captured group of `re.match(r'^---\s*\n(.*?)\n---', content, re.DOTALL)`
in `validate_skill_md`: the YAML frontmatter text. -/
def fmExtract (content : List Char) : Option (List Char) :=
  if (s ("---")).isPrefixOf content then
    let rest := content.drop 3
    fmScanAux rest (wsPrefixLen rest)
  else none

/-- After one whitespace character, either the literal follows or more
whitespace does: the `\s+lit` part of the section pattern. -/
def wsThenLit (lit : List Char) : List Char → Bool
  | [] => false
  | c :: t => isPySpace c && (lit.isPrefixOf t || wsThenLit lit t)

/-- `re.search(rf'#\s+{re.escape(sec)}', content)` of `validate_skill_md`:
a `#` anywhere, then one or more whitespace characters, then the section
name literally.  (Note: nothing anchors the `#` to a line start or forbids a
preceding `#`, so any heading level — or mid-line text — matches.) -/
def hashSecSearch (sec : List Char) : List Char → Bool
  | [] => false
  | c :: t => (c == '#' && wsThenLit sec t) || hashSecSearch sec t

/-- After the first `#` of a candidate heading: skip further `#`s, then
require one whitespace character (the `#+\s+` tail). -/
def hashThenWsTail : List Char → Bool
  | [] => false
  | c :: t => if c == '#' then hashThenWsTail t else isPySpace c

/-- `re.search(r'^#+\s+', content, re.MULTILINE)` of `validate_reference_md`:
at the start of the string or right after a newline, one or more `#`
followed by at least one whitespace character. -/
def lineHashSearch : Bool → List Char → Bool
  | _, [] => false
  | atStart, c :: t => (atStart && c == '#' && hashThenWsTail t) || lineHashSearch (c == '\n') t

/-- REQUIRED_SECTIONS of src2/skill_validator.py. -/
def REQUIRED_SECTIONS : List (List Char) :=
  [s ("Overview"), s ("When to Use This Skill"), s ("Core Capabilities"),
   s ("Installation and Setup"), s ("Quick Start"), s ("Standard Workflow"),
   s ("Common Tasks"), s ("Key Parameters"), s ("Best Practices"),
   s ("Common Pitfalls"), s ("Additional Resources"), s ("Bundled Resources")]

/-- REQUIRED_FRONTMATTER_KEYS of src2/skill_validator.py. -/
def REQUIRED_FRONTMATTER_KEYS : List (List Char) :=
  [s ("name"), s ("description"), s ("license"), s ("context"), s ("metadata")]

/-- First key of `keys` such that the substring `key + ":"` does not occur in
the frontmatter text — the key the source's loop reports. -/
def firstMissingKey (keys : List (List Char)) (fm : List Char) : Option (List Char) :=
  match keys with
  | [] => none
  | k :: ks => if containsSub (k ++ s (":")) fm then firstMissingKey ks fm else some k

/-- First section of `secs` whose `#\s+sec` pattern does not occur in the
content — the section the source's loop reports. -/
def firstMissingSection (secs : List (List Char)) (content : List Char) : Option (List Char) :=
  match secs with
  | [] => none
  | k :: ks => if hashSecSearch k content then firstMissingSection ks content else some k

/-- Oracle model of the external `ast.parse`: `none` when the code is
syntactically valid Python, `some e` when `ast.parse` raises a
`SyntaxError` rendered as the string `e`. -/
abbrev PyCheck := List Char → Option (List Char)

/-- validate_skill_md of src2/skill_validator.py.  Verdicts are the source's
pairs: `(1, None)` on success, `(0, message)` on failure. -/
def validate_skill_md (content : List Char) : Nat × Option (List Char) :=
  if pyStrip content = [] then (0, some (s ("SKILL.md content is empty")))
  else
    match fmExtract content with
    | none => (0, some (s ("SKILL.md is missing YAML frontmatter (--- delimiters)")))
    | some fm =>
      match firstMissingKey REQUIRED_FRONTMATTER_KEYS fm with
      | some k => (0, some (s ("YAML frontmatter is missing required key: ") ++ k))
      | none =>
        match firstMissingSection REQUIRED_SECTIONS content with
        | some sec =>
          (0, some (s ("SKILL.md is missing required section: \x27# ") ++ sec ++ s ("\x27")))
        | none =>
          if containsSub (s ("```")) content then (1, none)
          else (0, some (s ("SKILL.md has no code blocks")))

/-- validate_reference_md of src2/skill_validator.py. -/
def validate_reference_md (content : List Char) : Nat × Option (List Char) :=
  if pyStrip content = [] then (0, some (s ("Reference document is empty")))
  else if lineHashSearch true content then (1, none)
  else (0, some (s ("Reference document has no headers")))

/-- validate_example_script of src2/skill_validator.py: empty content is
valid; otherwise `ast.parse` (the oracle) decides, and a `SyntaxError`
message is quoted in the diagnostic. -/
def validate_example_script (pc : PyCheck) (content : List Char) : Nat × Option (List Char) :=
  if pyStrip content = [] then (1, none)
  else
    match pc content with
    | none => (1, none)
    | some e => (0, some (s ("Example script has SyntaxError: ") ++ e))

/-- The three extracted artifacts of the skill flavor (the dict literal of
parse_skill); the type itself guarantees all three keys are present. -/
structure Contents where
  skill_md : List Char
  reference_md : List Char
  example_script : List Char
deriving DecidableEq

/-- The first group of `re.findall(r'```python\n(.*?)\n```', text, re.DOTALL)`:
text between the leftmost fence opening that is followed by a closer and
that closer.  (When the first opening has no closer, no later opening has
one either, so returning `none` there is the `findall = []` case.) -/
def extractFence (l : List Char) : Option (List Char) :=
  match afterSub (s ("```python\n")) l with
  | none => none
  | some rest => takeBeforeSub (s ("\n```")) rest

/-- One delimiter block of parse_skill: text after `marker` up to the next
`stop` marker or the end of the response, stripped; a missing marker gives
the empty string. -/
def extractSection (marker stop resp : List Char) : List Char :=
  match afterSub marker resp with
  | none => []
  | some rest => pyStrip (takeUntilSub stop rest)

/-- The extraction part of BioinfoSkillConverter.parse_skill: the three
delimiter blocks, with the example script additionally unwrapped from a
markdown code fence when one is present. -/
def parse_skill_contents (resp : List Char) : Contents :=
  { skill_md := extractSection (s ("===SKILL.md===")) (s ("===REFERENCE.md===")) resp
    reference_md := extractSection (s ("===REFERENCE.md===")) (s ("===EXAMPLE_SCRIPT.py===")) resp
    example_script :=
      match afterSub (s ("===EXAMPLE_SCRIPT.py===")) resp with
      | none => []
      | some rest =>
        let raw := pyStrip rest
        match extractFence raw with
        | some code => code
        | none => raw }

/-- Python `f"{e}"` applied to the second verdict component (`None` prints as
`"None"`; that branch is unreachable for the verdicts produced here). -/
def fmtErr (e : Option (List Char)) : List Char :=
  match e with
  | some m => m
  | none => s ("None")

/-- BioinfoSkillConverter.parse_skill: extract the three blocks, then
validate them in order; the first failing artifact determines the verdict,
and the extracted contents are returned in every case. -/
def parse_skill (pc : PyCheck) (resp : List Char) : Nat × Option (List Char) × Contents :=
  let c := parse_skill_contents resp
  match validate_skill_md c.skill_md with
  | (0, e) => (0, some (s ("SKILL.md validation failed: ") ++ fmtErr e), c)
  | _ =>
    match validate_reference_md c.reference_md with
    | (0, e) => (0, some (s ("Reference validation failed: ") ++ fmtErr e), c)
    | _ =>
      match validate_example_script pc c.example_script with
      | (0, e) => (0, some (s ("Example script validation failed: ") ++ fmtErr e), c)
      | _ => (1, none, c)

/-- BioinfoMCP.parse_mcpcode of src/bioinfomcp_converter.py: the single
artifact is the first fenced python block; no block at all yields `None`
for the artifact (not an empty string). -/
def parse_mcpcode (pc : PyCheck) (resp : List Char) : Nat × Option (List Char) × Option (List Char) :=
  match extractFence resp with
  | none => (0, some (s ("There is no python code found in the gpt_response")), none)
  | some code =>
    match pc code with
    | some e => (0, some (s ("Code is not working with the following SyntaxError: ") ++ e), some code)
    | none =>
      if containsSub (s ("@mcp.tool")) code then (1, none, some code)
      else (0, some (s ("Code is missing the @mcp.tool() decorator")), some code)

/-- BioinfoSkillConverter.generate_prompt: the initial prompt of the skill
flavor, a pure function of author, license, tool name and help document. -/
def generate_prompt (author license tool help : List Char) : List Char :=
  s ("\nConvert the following bioinformatics tool documentation into a Claude Scientific Skill package.\n\nTool Name: ") ++
  tool ++ s ("\nSkill Author: ") ++ author ++ s ("\nLicense: ") ++ license ++
  s ("\n\nHelp Document:\n") ++ help ++
  s ("\n\nGenerate the complete skill package with all three blocks:\n1. ===SKILL.md=== - The full SKILL.md with YAML frontmatter and all required sections\n2. ===REFERENCE.md=== - Comprehensive parameter reference\n3. ===EXAMPLE_SCRIPT.py=== - A working Python example script\n\nMake sure to extract ALL parameters and cover ALL subcommands from the documentation.\n")

/-- The `existing` accumulator of BioinfoSkillConverter.refine_after_feedback:
each artifact of the current set is embedded when non-empty (Python
truthiness of the dict values). -/
def refine_existing (c : Contents) : List Char :=
  (if c.skill_md = [] then [] else s ("===SKILL.md===\n") ++ c.skill_md ++ s ("\n\n")) ++
  (if c.reference_md = [] then [] else s ("===REFERENCE.md===\n") ++ c.reference_md ++ s ("\n\n")) ++
  (if c.example_script = [] then []
   else s ("===EXAMPLE_SCRIPT.py===\n```python\n") ++ c.example_script ++ s ("\n```\n"))

/-- The repair prompt built inside BioinfoSkillConverter.refine_after_feedback:
the embedded prior artifacts followed by the single latest diagnostic. -/
def refine_prompt (tool : List Char) (c : Contents) (e : List Char) : List Char :=
  s ("\nThe initial skill package for ") ++ tool ++ s (":\n\n") ++ refine_existing c ++
  s ("\n\ncontains the following error:\n") ++ e ++
  s ("\n\nPlease fix the content and ensure that:\n1. SKILL.md has valid YAML frontmatter with name, description, license, context, metadata keys\n2. SKILL.md contains ALL required sections: Overview, When to Use This Skill, Core Capabilities, Installation and Setup, Quick Start, Standard Workflow, Common Tasks, Key Parameters, Best Practices, Common Pitfalls, Additional Resources, Bundled Resources\n3. SKILL.md contains at least one code block\n4. Reference document is not empty and has headers\n5. Example script (if present) has valid Python syntax\n\nProvide the corrected output with all three blocks using the ===SKILL.md===, ===REFERENCE.md===, and ===EXAMPLE_SCRIPT.py=== delimiters.\n")

/-- BioinfoMCP.generate_prompt: the initial prompt of the MCP flavor. -/
def mcp_generate_prompt (tool help : List Char) : List Char :=
  s ("\nConvert the following bioinformatics tool into an MCP tool definition.\n\nTool Name: ") ++
  tool ++ s ("\nHelp Document:\n") ++ help ++
  s ("\n\nParse the Input parameters correctly, follow the MCP best practices, and provide the complete python code with the @mcp.tool() decorator.\n")

/-- The repair prompt built inside BioinfoMCP.refine_after_feedback: the
current code block plus the single latest diagnostic. -/
def mcp_refine_prompt (tool code e : List Char) : List Char :=
  s ("\n            The initial code block for ") ++ tool ++
  s (":\n            ```python\n            ") ++ code ++
  s ("\n            ```\n            contains the following Error:\n            ") ++ e ++
  s ("\n\n            Please fix the code and ensure that \n            1. Cover every internal functions of the tool\n            2. Has proper error handling\n            3. Validates input parameters\n            4. Returns structured output\n            5. Follows MCP best practices\n\n            Provide only the corrected python code.\n\n        ")

/-- Python truthiness of `any(result[2].values())`: at least one of the three
artifact strings is non-empty. -/
def anyTruthy (c : Contents) : Bool :=
  !c.skill_md.isEmpty || !c.reference_md.isEmpty || !c.example_script.isEmpty

/-- The `while not result[0]` loop of convert_skill (src2/main.py), with the
backend abstracted as the list of raw completions it returns for the
successive attempts.  Given the result of the current attempt: on a
failing verdict the next prompt is the original prompt when every artifact
value is empty (`not any(result[2].values())`; `result[2]` is never `None`
since parse_skill always returns the dict), and the repair prompt built
from the current artifact set plus latest diagnostic otherwise.  Returns
the prompts sent for the remaining attempts and the final contents, `none`
when the completion list is exhausted before a passing verdict. -/
def skillLoopGo (pc : PyCheck) (author license tool help : List Char) :
    Nat × Option (List Char) × Contents → List (List Char) →
    List (List Char) × Option Contents
  | r, [] => if r.1 = 0 then ([], none) else ([], some r.2.2)
  | r, resp :: rest =>
    if r.1 = 0 then
      let p := if anyTruthy r.2.2 then refine_prompt tool r.2.2 (fmtErr r.2.1)
               else generate_prompt author license tool help
      let nx := skillLoopGo pc author license tool help (parse_skill pc resp) rest
      (p :: nx.1, nx.2)
    else ([], some r.2.2)

/-- convert_skill of src2/main.py: the initial prompt, the first completion,
then the retry loop over the remaining completions. -/
def convert_skill (pc : PyCheck) (author license tool help : List Char)
    (first : List Char) (rest : List (List Char)) : List (List Char) × Option Contents :=
  let nx := skillLoopGo pc author license tool help (parse_skill pc first) rest
  (generate_prompt author license tool help :: nx.1, nx.2)

/-- The `while not conv_result[0]` loop of convert_mcptool (src/main.py): on a
failing verdict the next prompt is the original prompt when the artifact is
`None` (`conv_result[2] is None` — no fenced code found), and the repair
prompt otherwise (even when the extracted code is the empty string). -/
def mcpLoopGo (pc : PyCheck) (tool help : List Char) :
    Nat × Option (List Char) × Option (List Char) → List (List Char) →
    List (List Char) × Option (List Char)
  | r, [] => if r.1 = 0 then ([], none) else ([], r.2.2)
  | r, resp :: rest =>
    if r.1 = 0 then
      let p := match r.2.2 with
        | none => mcp_generate_prompt tool help
        | some code => mcp_refine_prompt tool code (fmtErr r.2.1)
      let nx := mcpLoopGo pc tool help (parse_mcpcode pc resp) rest
      (p :: nx.1, nx.2)
    else ([], r.2.2)

/-- convert_mcptool of src/main.py (the per-tool conversion loop). -/
def convert_mcptool (pc : PyCheck) (tool help : List Char)
    (first : List Char) (rest : List (List Char)) :
    List (List Char) × Option (List Char) :=
  let nx := mcpLoopGo pc tool help (parse_mcpcode pc first) rest
  (mcp_generate_prompt tool help :: nx.1, nx.2)

/-- The backquote character, written by code point. -/
def btChar : Char := Char.ofNat 96

/-- A sample instantiation of the external syntax-check oracle that declares
every input syntactically valid.  Used only to evaluate facts that either
do not depend on the oracle or whose concrete inputs (such as the empty
string or `print(1)`) genuinely parse as Python. -/
def astOracle0 : PyCheck := fun _ => none

/-- A sample instantiation of the external syntax-check oracle that reports a
syntax error on every input, with a message of the shape `ast.parse`
produces.  Used to evaluate the failure branches concretely. -/
def astOracleBad : PyCheck := fun _ => some (s ("invalid syntax (<string>, line 1)"))

/-- Split a text into its newline-separated lines (used only by the
spec-worded checkers below). -/
def splitLines : List Char → List (List Char)
  | [] => [[]]
  | c :: t =>
    match splitLines t with
    | [] => if c == '\n' then [[], []] else [[c]]
    | h :: r => if c == '\n' then [] :: h :: r else (c :: h) :: r

/-- Checker following the spec's words, for comparison with the code's
behaviour: the metadata block contains `key` as a key:value line, i.e. a
line beginning with `key:`. -/
def hasKeyValueLine (key fm : List Char) : Bool :=
  (splitLines fm).any (fun line => (key ++ s (":")).isPrefixOf line)

/-- Checker following the spec's words, for comparison with the code's
behaviour: the section name is present as a level-1 markdown heading, i.e.
a line beginning with a single `#` followed by a space and the name. -/
def hasLevel1Heading (sec content : List Char) : Bool :=
  (splitLines content).any (fun line => (s ("# ") ++ sec).isPrefixOf line)

/-- A guide document whose frontmatter has every required key as a proper
key:value line and all twelve required sections as level-2 (`##`)
headings, plus a fenced code block. -/
def docLevel2 : List Char :=
  s ("---\nname: t\ndescription: d\nlicense: l\ncontext: c\nmetadata: m\n---\n## Overview\n## When to Use This Skill\n## Core Capabilities\n## Installation and Setup\n## Quick Start\n## Standard Workflow\n## Common Tasks\n## Key Parameters\n## Best Practices\n## Common Pitfalls\n## Additional Resources\n## Bundled Resources\n```x```")

/-- A guide document whose frontmatter has no `name` key:value line at all —
its first line uses the key `tool_name` — while every other required key
is present, with all twelve sections as level-1 headings and a code
block. -/
def docToolName : List Char :=
  s ("---\ntool_name: t\ndescription: d\nlicense: l\ncontext: c\nmetadata: m\n---\n# Overview\n# When to Use This Skill\n# Core Capabilities\n# Installation and Setup\n# Quick Start\n# Standard Workflow\n# Common Tasks\n# Key Parameters\n# Best Practices\n# Common Pitfalls\n# Additional Resources\n# Bundled Resources\n```x```")

/-- The frontmatter text parse of docToolName. -/
def fmToolName : List Char :=
  s ("tool_name: t\ndescription: d\nlicense: l\ncontext: c\nmetadata: m")

/-- A guide document that is complete except for the single required section
`Best Practices`. -/
def docNoBP : List Char :=
  s ("---\nname: t\ndescription: d\nlicense: l\ncontext: c\nmetadata: m\n---\n# Overview\n# When to Use This Skill\n# Core Capabilities\n# Installation and Setup\n# Quick Start\n# Standard Workflow\n# Common Tasks\n# Key Parameters\n# Common Pitfalls\n# Additional Resources\n# Bundled Resources\n```x```")

/-- The frontmatter text shared by docLevel2, docNoBP and docNoMeta. -/
def fmFull : List Char :=
  s ("name: t\ndescription: d\nlicense: l\ncontext: c\nmetadata: m")

/-- A guide document that is complete except that its metadata block omits
the required key `metadata`. -/
def docNoMeta : List Char :=
  s ("---\nname: t\ndescription: d\nlicense: l\ncontext: c\n---\n# Overview\n# When to Use This Skill\n# Core Capabilities\n# Installation and Setup\n# Quick Start\n# Standard Workflow\n# Common Tasks\n# Key Parameters\n# Best Practices\n# Common Pitfalls\n# Additional Resources\n# Bundled Resources\n```x```")

/-- The frontmatter text parse of docNoMeta. -/
def fmNoMeta : List Char :=
  s ("name: t\ndescription: d\nlicense: l\ncontext: c")

/-- A fully valid guide document (level-1 headings everywhere). -/
def docOk : List Char :=
  s ("---\nname: t\ndescription: d\nlicense: l\ncontext: c\nmetadata: m\n---\n# Overview\n# When to Use This Skill\n# Core Capabilities\n# Installation and Setup\n# Quick Start\n# Standard Workflow\n# Common Tasks\n# Key Parameters\n# Best Practices\n# Common Pitfalls\n# Additional Resources\n# Bundled Resources\n```x```")

/-- A complete raw completion whose three blocks all validate (the example
script block is absent, which parses to the empty — valid — script). -/
def respOk : List Char :=
  s ("===SKILL.md===\n") ++ docOk ++ s ("\n===REFERENCE.md===\n# R\n===EXAMPLE_SCRIPT.py===\n")

/-- The artifact set extracted from respOk. -/
def contentsOk : Contents :=
  { skill_md := docOk, reference_md := s ("# R"), example_script := [] }

/-- Outcome of one call of the external `ast.parse`, with its exception
behaviour made explicit: it may succeed, raise a `SyntaxError` (the one
class the source's `except SyntaxError` clauses catch), or raise any
other exception — e.g. `ValueError` on null-byte content on CPython up
to 3.11 (the repository's own environment files pin python 3.10), or
`RecursionError` on deeply nested source. -/
inductive PyOutcome where
  | ok : PyOutcome
  | synErr : List Char → PyOutcome
  | othErr : List Char → PyOutcome
deriving DecidableEq

/-- Exception-aware oracle model of the external `ast.parse`. -/
abbrev PyCheckExc := List Char → PyOutcome

/-- validate_example_script of src2/skill_validator.py with the external
call's exceptions made explicit: `Except.error e` models the Python
function itself raising `e`, which happens exactly when `ast.parse`
raises anything other than the caught `SyntaxError`. -/
def validate_example_script_exc (pc : PyCheckExc) (content : List Char) :
    Except (List Char) (Nat × Option (List Char)) :=
  if pyStrip content = [] then Except.ok (1, none)
  else
    match pc content with
    | PyOutcome.ok => Except.ok (1, none)
    | PyOutcome.synErr e =>
      Except.ok (0, some (s ("Example script has SyntaxError: ") ++ e))
    | PyOutcome.othErr e => Except.error e

/-- BioinfoMCP.parse_mcpcode of src/bioinfomcp_converter.py with the external
call's exceptions made explicit (its `try/except` likewise catches only
`SyntaxError`). -/
def parse_mcpcode_exc (pc : PyCheckExc) (resp : List Char) :
    Except (List Char) (Nat × Option (List Char) × Option (List Char)) :=
  match extractFence resp with
  | none =>
    Except.ok (0, some (s ("There is no python code found in the gpt_response")), none)
  | some code =>
    match pc code with
    | PyOutcome.synErr e =>
      Except.ok (0, some (s ("Code is not working with the following SyntaxError: ") ++ e),
        some code)
    | PyOutcome.othErr e => Except.error e
    | PyOutcome.ok =>
      if containsSub (s ("@mcp.tool")) code then Except.ok (1, none, some code)
      else Except.ok (0, some (s ("Code is missing the @mcp.tool() decorator")), some code)

/-- A sample instantiation of the exception-aware oracle modelling the
interpreter the repository pins (CPython 3.10), on which `ast.parse`
raises `ValueError` — not `SyntaxError` — for source containing a null
byte, and succeeds on the plain inputs used concretely here. -/
def astOracle310 : PyCheckExc := fun code =>
  if code.contains (Char.ofNat 0) then
    PyOutcome.othErr (s ("source code string cannot contain null bytes"))
  else PyOutcome.ok

lemma containsSub_nil (l : List Char) : containsSub [] l = true := by
  cases l <;> simp [containsSub, List.isPrefixOf, List.isEmpty]

lemma isPrefixOf_self (l : List Char) : l.isPrefixOf l = true := by
  induction l with
  | nil => rfl
  | cons x t ih => simp [List.isPrefixOf, ih]

lemma isPrefixOf_append_self (l t : List Char) : l.isPrefixOf (l ++ t) = true := by
  induction l with
  | nil => simp [List.isPrefixOf]
  | cons x l2 ih => simp [List.isPrefixOf, ih]

lemma containsSub_pre_post (a n b : List Char) : containsSub n (a ++ (n ++ b)) = true := by
  induction a with
  | nil =>
    simp only [List.nil_append]
    cases hn : n ++ b with
    | nil =>
      have : n = [] := by
        cases n with
        | nil => rfl
        | cons x t => simp at hn
      simp [containsSub, hn, this, List.isEmpty]
    | cons y ys =>
      have : n.isPrefixOf (n ++ b) = true := isPrefixOf_append_self n b
      rw [hn] at this
      simp [containsSub, this]
  | cons x a2 ih => simp [containsSub, ih]

lemma containsSub_of_decomp {n hay : List Char} (a b : List Char)
    (h : hay = a ++ (n ++ b)) : containsSub n hay = true := by
  subst h; exact containsSub_pre_post a n b

lemma isPrefixOf_mem {n l : List Char} {c : Char}
    (h : n.isPrefixOf l = true) (hc : c ∈ n) : c ∈ l := by
  induction n generalizing l with
  | nil => simp at hc
  | cons x t ih =>
    cases l with
    | nil => simp [List.isPrefixOf] at h
    | cons y m =>
      simp only [List.isPrefixOf, Bool.and_eq_true, beq_iff_eq] at h
      rcases List.mem_cons.mp hc with hcx | hct
      · exact List.mem_cons.mpr (Or.inl (hcx.trans h.1))
      · exact List.mem_cons.mpr (Or.inr (ih h.2 hct))

lemma containsSub_mem {n l : List Char} {c : Char}
    (h : containsSub n l = true) (hc : c ∈ n) : c ∈ l := by
  induction l with
  | nil =>
    simp only [containsSub, List.isEmpty_iff] at h
    subst h; simp at hc
  | cons y m ih =>
    simp only [containsSub, Bool.or_eq_true] at h
    rcases h with h | h
    · exact isPrefixOf_mem h hc
    · exact List.mem_cons.mpr (Or.inr (ih h))

lemma afterSub_none_of_not_contains {n l : List Char}
    (h : containsSub n l = false) : afterSub n l = none := by
  induction l with
  | nil =>
    simp only [containsSub] at h
    simp [afterSub, h]
  | cons y m ih =>
    simp only [containsSub, Bool.or_eq_false_iff] at h
    simp [afterSub, h.1, ih h.2]

lemma afterSub_append_self (n t : List Char) : afterSub n (n ++ t) = some t := by
  cases n with
  | nil =>
    cases t with
    | nil => rfl
    | cons y m => simp [afterSub, List.isPrefixOf]
  | cons x n2 =>
    rw [List.cons_append]
    have hp : (x :: n2).isPrefixOf (x :: (n2 ++ t)) = true := by
      rw [← List.cons_append]; exact isPrefixOf_append_self _ t
    simp [afterSub, hp, List.drop_left]

lemma takeUntilSub_eq_self {stop l : List Char}
    (h : containsSub stop l = false) : takeUntilSub stop l = l := by
  induction l with
  | nil => rfl
  | cons y m ih =>
    simp only [containsSub, Bool.or_eq_false_iff] at h
    simp [takeUntilSub, h.1, ih h.2]

lemma takeBeforeSub_append_self {n0 n1 : Char} {nr a : List Char}
    (hne : n1 ≠ n0) (ha : n1 ∉ a) :
    takeBeforeSub (n0 :: n1 :: nr) (a ++ (n0 :: n1 :: nr)) = some a := by
  induction a with
  | nil =>
    simp [takeBeforeSub, isPrefixOf_self]
  | cons x t ih =>
    have hx : n1 ∉ t := fun hm => ha (List.mem_cons.mpr (Or.inr hm))
    have hnp : (n0 :: n1 :: nr).isPrefixOf (x :: (t ++ (n0 :: n1 :: nr))) = false := by
      have h2 : (n1 :: nr).isPrefixOf (t ++ (n0 :: n1 :: nr)) = false := by
        cases t with
        | nil =>
          cases hbe : (n1 == n0) with
          | true => exact absurd (eq_of_beq hbe) hne
          | false => simp [List.isPrefixOf, hbe]
        | cons z t2 =>
          have hz : n1 ≠ z := fun hzz => ha (by simp [hzz])
          cases hbe : (n1 == z) with
          | true => exact absurd (eq_of_beq hbe) hz
          | false => simp [List.isPrefixOf, hbe]
      simp [List.isPrefixOf, h2]
    rw [List.cons_append]
    simp [takeBeforeSub, hnp, ih hx]

lemma ne_nil_append {a : List Char} (h : a ≠ []) (b : List Char) : a ++ b ≠ [] := by
  cases a with
  | nil => exact absurd rfl h
  | cons x t => simp

lemma ltrim_cons_of_ws {x : Char} (h : isPySpace x = true) (t : List Char) :
    ltrim (x :: t) = ltrim t := by
  simp [ltrim, List.dropWhile, h]

lemma ltrim_cons_of_not_ws {x : Char} (h : isPySpace x = false) (t : List Char) :
    ltrim (x :: t) = x :: t := by
  simp [ltrim, List.dropWhile, h]

lemma ltrim_append_of_ne_nil {a : List Char} (h : ltrim a ≠ []) (b : List Char) :
    ltrim (a ++ b) = ltrim a ++ b := by
  induction a with
  | nil => exact absurd rfl h
  | cons x t ih =>
    cases hx : isPySpace x with
    | true =>
      rw [ltrim_cons_of_ws hx] at h
      simp only [List.cons_append, ltrim_cons_of_ws hx, ih h]
    | false =>
      simp only [List.cons_append, ltrim_cons_of_not_ws hx]

lemma ltrim_append_of_self {a : List Char} (h : ltrim a = a) (ha : a ≠ [])
    (b : List Char) : ltrim (a ++ b) = a ++ b := by
  have : ltrim a ≠ [] := by rw [h]; exact ha
  rw [ltrim_append_of_ne_nil this b, h]

lemma rtrim_ne_nil_iff {b : List Char} : rtrim b ≠ [] ↔ ltrim b.reverse ≠ [] := by
  unfold rtrim
  constructor
  · intro h hh; exact h (by rw [hh]; rfl)
  · intro h hh; exact h (by simpa using congrArg List.reverse hh)

lemma rtrim_append {b : List Char} (h : rtrim b ≠ []) (a : List Char) :
    rtrim (a ++ b) = a ++ rtrim b := by
  unfold rtrim
  rw [List.reverse_append, ltrim_append_of_ne_nil (rtrim_ne_nil_iff.mp h)]
  simp [rtrim]

lemma pyStrip_three {a m c : List Char} (hm : m ≠ []) (hml : ltrim m = m)
    (hmr : rtrim m = m) (ha : ltrim a = a) (hc : rtrim c = c) :
    pyStrip (a ++ m ++ c) = a ++ m ++ c := by
  unfold pyStrip
  have h1 : rtrim (a ++ m ++ c) = a ++ m ++ c := by
    by_cases hc1 : c = []
    · subst hc1
      rw [List.append_nil, rtrim_append (by rw [hmr]; exact hm) a, hmr]
    · rw [rtrim_append (by rw [hc]; exact hc1) (a ++ m), hc]
  rw [h1]
  by_cases ha1 : a = []
  · subst ha1
    simp only [List.nil_append]
    exact ltrim_append_of_self hml hm c
  · rw [List.append_assoc]
    rw [ltrim_append_of_self ha ha1 (m ++ c), ← List.append_assoc]

lemma validate_skill_md_shape (c : List Char) :
    validate_skill_md c = (1, none) ∨
    ∃ d, validate_skill_md c = (0, some d) ∧ d ≠ [] := by
  unfold validate_skill_md
  split
  · exact Or.inr ⟨_, rfl, by decide⟩
  · split
    · exact Or.inr ⟨_, rfl, by decide⟩
    · split
      · exact Or.inr ⟨_, rfl, ne_nil_append (by decide) _⟩
      · split
        · exact Or.inr ⟨_, rfl, ne_nil_append (ne_nil_append (by decide) _) _⟩
        · split
          · exact Or.inl rfl
          · exact Or.inr ⟨_, rfl, by decide⟩

lemma validate_reference_md_shape (c : List Char) :
    validate_reference_md c = (1, none) ∨
    ∃ d, validate_reference_md c = (0, some d) ∧ d ≠ [] := by
  unfold validate_reference_md
  split
  · exact Or.inr ⟨_, rfl, by decide⟩
  · split
    · exact Or.inl rfl
    · exact Or.inr ⟨_, rfl, by decide⟩

lemma validate_example_script_shape (pc : PyCheck) (c : List Char) :
    validate_example_script pc c = (1, none) ∨
    ∃ d, validate_example_script pc c = (0, some d) ∧ d ≠ [] := by
  unfold validate_example_script
  split
  · exact Or.inl rfl
  · split
    · exact Or.inl rfl
    · exact Or.inr ⟨_, rfl, ne_nil_append (by decide) _⟩

lemma verdict_iff_of_shape {v : Nat × Option (List Char)}
    (h : v = (1, none) ∨ ∃ d, v = (0, some d) ∧ d ≠ []) :
    v.1 = 1 ↔ v.2 = none := by
  rcases h with h | ⟨d, h, hd⟩ <;> subst h <;> simp

lemma parse_skill_shape (pc : PyCheck) (resp : List Char) :
    parse_skill pc resp = (1, none, parse_skill_contents resp) ∨
    ∃ d, parse_skill pc resp = (0, some d, parse_skill_contents resp) ∧ d ≠ [] := by
  simp only [parse_skill]
  split
  · exact Or.inr ⟨_, rfl, ne_nil_append (by decide) _⟩
  · split
    · exact Or.inr ⟨_, rfl, ne_nil_append (by decide) _⟩
    · split
      · exact Or.inr ⟨_, rfl, ne_nil_append (by decide) _⟩
      · exact Or.inl rfl

lemma parse_skill_fst (pc : PyCheck) (resp : List Char) :
    (parse_skill pc resp).1 = 0 ∨ (parse_skill pc resp).1 = 1 := by
  rcases parse_skill_shape pc resp with h | ⟨d, h, _⟩ <;> rw [h]
  · exact Or.inr rfl
  · exact Or.inl rfl

lemma parse_mcpcode_shape (pc : PyCheck) (resp : List Char) :
    (∃ code, parse_mcpcode pc resp = (1, none, some code)) ∨
    ∃ d, (parse_mcpcode pc resp).1 = 0 ∧ (parse_mcpcode pc resp).2.1 = some d ∧ d ≠ [] := by
  unfold parse_mcpcode
  split
  · exact Or.inr ⟨_, rfl, rfl, by decide⟩
  · split
    · exact Or.inr ⟨_, rfl, rfl, ne_nil_append (by decide) _⟩
    · split
      · exact Or.inl ⟨_, rfl⟩
      · exact Or.inr ⟨_, rfl, rfl, by decide⟩

lemma skillLoopGo_head_restart (pc : PyCheck) (author license tool help : List Char)
    (r : Nat × Option (List Char) × Contents) (resp : List Char) (rest : List (List Char))
    (h0 : r.1 = 0) (hAny : anyTruthy r.2.2 = false) :
    (skillLoopGo pc author license tool help r (resp :: rest)).1.head? =
      some (generate_prompt author license tool help) := by
  simp [skillLoopGo, h0, hAny]

lemma skillLoopGo_head_refine (pc : PyCheck) (author license tool help : List Char)
    (r : Nat × Option (List Char) × Contents) (resp : List Char) (rest : List (List Char))
    (h0 : r.1 = 0) (hAny : anyTruthy r.2.2 = true) :
    (skillLoopGo pc author license tool help r (resp :: rest)).1.head? =
      some (refine_prompt tool r.2.2 (fmtErr r.2.1)) := by
  simp [skillLoopGo, h0, hAny]

lemma skillLoopGo_done (pc : PyCheck) (author license tool help : List Char) :
    ∀ (rs : List (List Char)) (r : Nat × Option (List Char) × Contents) (c : Contents),
      (skillLoopGo pc author license tool help r rs).2 = some c →
      (r.1 ≠ 0 ∧ r.2.2 = c) ∨
      ∃ resp, resp ∈ rs ∧ (parse_skill pc resp).1 ≠ 0 ∧ (parse_skill pc resp).2.2 = c := by
  intro rs
  induction rs with
  | nil =>
    intro r c h
    by_cases h0 : r.1 = 0
    · simp [skillLoopGo, h0] at h
    · simp [skillLoopGo, h0] at h
      exact Or.inl ⟨h0, h⟩
  | cons resp rest ih =>
    intro r c h
    by_cases h0 : r.1 = 0
    · simp only [skillLoopGo, h0, if_pos] at h
      rcases ih (parse_skill pc resp) c h with h1 | ⟨resp2, hm, h2⟩
      · exact Or.inr ⟨resp, List.mem_cons_self _ _, h1.1, h1.2⟩
      · exact Or.inr ⟨resp2, List.mem_cons.mpr (Or.inr hm), h2⟩
    · simp [skillLoopGo, h0] at h
      exact Or.inl ⟨h0, h⟩

lemma firstMissingKey_spec (keys : List (List Char)) :
    ∀ (fm k : List Char), firstMissingKey keys fm = some k →
      containsSub (k ++ s (":")) fm = false ∧ k ∈ keys := by
  induction keys with
  | nil => intro fm k h; simp [firstMissingKey] at h
  | cons k2 ks ih =>
    intro fm k h
    rw [firstMissingKey] at h
    split at h
    · rcases ih fm k h with ⟨h1, h2⟩
      exact ⟨h1, List.mem_cons.mpr (Or.inr h2)⟩
    · rename_i hc
      obtain rfl := Option.some.inj h
      simp only [Bool.not_eq_true] at hc
      exact ⟨hc, List.mem_cons_self _ _⟩

lemma firstMissingSection_spec (secs : List (List Char)) :
    ∀ (content k : List Char), firstMissingSection secs content = some k →
      hashSecSearch k content = false ∧ k ∈ secs := by
  induction secs with
  | nil => intro content k h; simp [firstMissingSection] at h
  | cons k2 ks ih =>
    intro content k h
    rw [firstMissingSection] at h
    split at h
    · rcases ih content k h with ⟨h1, h2⟩
      exact ⟨h1, List.mem_cons.mpr (Or.inr h2)⟩
    · rename_i hc
      obtain rfl := Option.some.inj h
      simp only [Bool.not_eq_true] at hc
      exact ⟨hc, List.mem_cons_self _ _⟩

lemma parse_mcpcode_fst (pc : PyCheck) (resp : List Char) :
    (parse_mcpcode pc resp).1 = 0 ∨ (parse_mcpcode pc resp).1 = 1 := by
  rcases parse_mcpcode_shape pc resp with ⟨code, h⟩ | ⟨d, h1, _, _⟩
  · rw [h]; exact Or.inr rfl
  · exact Or.inl h1

lemma mcpLoopGo_head_restart (pc : PyCheck) (tool help : List Char)
    (r : Nat × Option (List Char) × Option (List Char)) (resp : List Char)
    (rest : List (List Char)) (h0 : r.1 = 0) (hNone : r.2.2 = none) :
    (mcpLoopGo pc tool help r (resp :: rest)).1.head? =
      some (mcp_generate_prompt tool help) := by
  simp [mcpLoopGo, h0, hNone]

lemma mcpLoopGo_head_refine (pc : PyCheck) (tool help : List Char)
    (r : Nat × Option (List Char) × Option (List Char)) (resp : List Char)
    (rest : List (List Char)) (code : List Char) (h0 : r.1 = 0) (hSome : r.2.2 = some code) :
    (mcpLoopGo pc tool help r (resp :: rest)).1.head? =
      some (mcp_refine_prompt tool code (fmtErr r.2.1)) := by
  simp [mcpLoopGo, h0, hSome]

lemma mcpLoopGo_done (pc : PyCheck) (tool help : List Char) :
    ∀ (rs : List (List Char)) (r : Nat × Option (List Char) × Option (List Char))
      (c : List Char),
      (mcpLoopGo pc tool help r rs).2 = some c →
      (r.1 ≠ 0 ∧ r.2.2 = some c) ∨
      ∃ resp, resp ∈ rs ∧ (parse_mcpcode pc resp).1 ≠ 0 ∧
        (parse_mcpcode pc resp).2.2 = some c := by
  intro rs
  induction rs with
  | nil =>
    intro r c h
    by_cases h0 : r.1 = 0
    · simp [mcpLoopGo, h0] at h
    · simp only [mcpLoopGo, h0, if_neg, if_false] at h
      exact Or.inl ⟨h0, h⟩
  | cons resp rest ih =>
    intro r c h
    by_cases h0 : r.1 = 0
    · simp only [mcpLoopGo, h0, if_pos] at h
      rcases ih (parse_mcpcode pc resp) c h with h1 | ⟨resp2, hm, h2⟩
      · exact Or.inr ⟨resp, List.mem_cons_self _ _, h1.1, h1.2⟩
      · exact Or.inr ⟨resp2, List.mem_cons.mpr (Or.inr hm), h2⟩
    · simp only [mcpLoopGo, h0, if_neg, if_false] at h
      exact Or.inl ⟨h0, h⟩

/-- C1: for the three-artifact parse, every key of the schema is present in
the returned artifact set (the `Contents` record returned unchanged by
`parse_skill`) and a missing delimiter marker yields the empty string;
for the single-artifact flavor, however, a completion without the fenced
code marker binds the artifact to `None` — not to the empty string.  This
theorem is the amended form. -/
theorem claim1_amended : ∀ (pc : PyCheck) (resp : List Char),
    (containsSub (s ("===SKILL.md===")) resp = false →
      (parse_skill_contents resp).skill_md = []) ∧
    (containsSub (s ("===REFERENCE.md===")) resp = false →
      (parse_skill_contents resp).reference_md = []) ∧
    (containsSub (s ("===EXAMPLE_SCRIPT.py===")) resp = false →
      (parse_skill_contents resp).example_script = []) ∧
    (parse_skill pc resp).2.2 = parse_skill_contents resp ∧
    (containsSub (s ("```python\n")) resp = false →
      (parse_mcpcode pc resp).2.2 = none) := by
  intro pc resp
  refine ⟨?_, ?_, ?_, ?_, ?_⟩
  · intro h
    simp [parse_skill_contents, extractSection, afterSub_none_of_not_contains h]
  · intro h
    simp [parse_skill_contents, extractSection, afterSub_none_of_not_contains h]
  · intro h
    simp [parse_skill_contents, afterSub_none_of_not_contains h]
  · rcases parse_skill_shape pc resp with h | ⟨d, h, _⟩ <;> rw [h]
  · intro h
    simp [parse_mcpcode, extractFence, afterSub_none_of_not_contains h]

/-- C1 witness: claim1_amended evaluated on the completion "x", which
contains none of the markers. -/
theorem claim1_witness :
    (parse_skill_contents (s ("x"))).skill_md = [] ∧
    (parse_skill_contents (s ("x"))).reference_md = [] ∧
    (parse_skill_contents (s ("x"))).example_script = [] ∧
    (parse_skill astOracle0 (s ("x"))).2.2 = parse_skill_contents (s ("x")) ∧
    (parse_mcpcode astOracle0 (s ("x"))).2.2 = none := by
  have h := claim1_amended astOracle0 (s ("x"))
  exact ⟨h.1 (by decide), h.2.1 (by decide), h.2.2.1 (by decide),
         h.2.2.2.1, h.2.2.2.2 (by decide)⟩

/-- C1 counterexample: the single-artifact parse of a completion with no
fenced code block binds the artifact to `none` (Python `None`), not to
the empty string, refuting the claim for the single-artifact schema. -/
theorem claim1_counterexample :
    parse_mcpcode astOracle0 (s ("hello")) =
      (0, some (s ("There is no python code found in the gpt_response")), none) ∧
    (parse_mcpcode astOracle0 (s ("hello"))).2.2 ≠ some [] := by
  exact ⟨by decide, by decide⟩

/-- C2 counterexample: under the exception-aware model of the interpreter the
repository pins (CPython 3.10), validating a non-empty artifact that
contains a null byte does not return a verdict — the uncaught
`ValueError` of `ast.parse` propagates out of `validate_example_script`,
and likewise out of the single-artifact syntax check — refuting the
claim that validation returns a verdict and never raises for
binary-looking content. -/
theorem claim2_counterexample :
    validate_example_script_exc astOracle310 [Char.ofNat 0] =
      Except.error (s ("source code string cannot contain null bytes")) ∧
    parse_mcpcode_exc astOracle310 (s ("```python\n") ++ [Char.ofNat 0] ++ s ("\n```")) =
      Except.error (s ("source code string cannot contain null bytes")) := by
  exact ⟨rfl, rfl⟩

/-- C2 amended: `validate_skill_md` and `validate_reference_md` are
deterministic and total for any string content and return a 0/1-flagged
verdict.  `validate_example_script` is deterministic; it returns a
0/1-flagged verdict for empty content without consulting the parser and
for any content on which `ast.parse` either succeeds or raises
`SyntaxError` — the only exception the code catches; when `ast.parse`
raises any other exception (as CPython 3.10, which the repository pins,
does with `ValueError` on null-byte content), that exception propagates
and no verdict is returned, and the same holds for the single-artifact
syntax check. -/
theorem claim2_amended :
    (∀ content : List Char,
      ((validate_skill_md content).1 = 0 ∨ (validate_skill_md content).1 = 1) ∧
      ((validate_reference_md content).1 = 0 ∨ (validate_reference_md content).1 = 1)) ∧
    (∀ (pc : PyCheckExc) (content : List Char),
      (pyStrip content = [] → validate_example_script_exc pc content = Except.ok (1, none)) ∧
      (pc content = PyOutcome.ok ∨ (∃ e, pc content = PyOutcome.synErr e) →
        ∃ v, validate_example_script_exc pc content = Except.ok v ∧
          (v.1 = 0 ∨ v.1 = 1)) ∧
      (∀ e, pyStrip content ≠ [] → pc content = PyOutcome.othErr e →
        validate_example_script_exc pc content = Except.error e)) ∧
    (∀ (pc : PyCheckExc) (resp code e : List Char),
      extractFence resp = some code → pc code = PyOutcome.othErr e →
      parse_mcpcode_exc pc resp = Except.error e) := by
  refine ⟨?_, ?_, ?_⟩
  · intro content
    constructor
    · rcases validate_skill_md_shape content with h | ⟨d, h, _⟩ <;> rw [h]
      · exact Or.inr rfl
      · exact Or.inl rfl
    · rcases validate_reference_md_shape content with h | ⟨d, h, _⟩ <;> rw [h]
      · exact Or.inr rfl
      · exact Or.inl rfl
  · intro pc content
    refine ⟨?_, ?_, ?_⟩
    · intro hs
      simp [validate_example_script_exc, hs]
    · intro h
      unfold validate_example_script_exc
      by_cases hs : pyStrip content = []
      · rw [if_pos hs]
        exact ⟨(1, none), rfl, Or.inr rfl⟩
      · rw [if_neg hs]
        rcases h with h | ⟨e, h⟩ <;> rw [h]
        · exact ⟨(1, none), rfl, Or.inr rfl⟩
        · exact ⟨_, rfl, Or.inl rfl⟩
    · intro e hs h
      unfold validate_example_script_exc
      rw [if_neg hs, h]
  · intro pc resp code e hf h
    simp [parse_mcpcode_exc, hf, h]

/-- C2 witness: claim2_amended evaluated under the CPython 3.10 oracle — the
two oracle-free validators on a concrete string, a verdict for a plain
script, the empty-script short-circuit, the propagated null-byte
exception, and its single-artifact analogue. -/
theorem claim2_witness :
    ((validate_skill_md (s ("x"))).1 = 0 ∨ (validate_skill_md (s ("x"))).1 = 1) ∧
    ((validate_reference_md (s ("x"))).1 = 0 ∨ (validate_reference_md (s ("x"))).1 = 1) ∧
    validate_example_script_exc astOracle310 [] = Except.ok (1, none) ∧
    (∃ v, validate_example_script_exc astOracle310 (s ("print(1)")) = Except.ok v ∧
      (v.1 = 0 ∨ v.1 = 1)) ∧
    validate_example_script_exc astOracle310 [Char.ofNat 0] =
      Except.error (s ("source code string cannot contain null bytes")) ∧
    parse_mcpcode_exc astOracle310 (s ("```python\n") ++ [Char.ofNat 0] ++ s ("\n```")) =
      Except.error (s ("source code string cannot contain null bytes")) := by
  refine ⟨(claim2_amended.1 (s ("x"))).1, (claim2_amended.1 (s ("x"))).2,
    (claim2_amended.2.1 astOracle310 []).1 (by decide),
    (claim2_amended.2.1 astOracle310 (s ("print(1)"))).2.1 (Or.inl (by decide)),
    (claim2_amended.2.1 astOracle310 [Char.ofNat 0]).2.2 _ (by decide) (by decide),
    claim2_amended.2.2 astOracle310 (s ("```python\n") ++ [Char.ofNat 0] ++ s ("\n```"))
      [Char.ofNat 0] (s ("source code string cannot contain null bytes"))
      (by decide) (by decide)⟩

/-- C9: every validator verdict is exactly `(1, None)` or `(0, d)` with a
non-empty diagnostic `d`, so the flag is 1 iff the diagnostic is `None`;
and `parse_skill` returns the extracted contents mapping unchanged in
both the success and the failure case, with the same flag/diagnostic
correspondence. -/
theorem claim9_verdict_shapes : ∀ (pc : PyCheck) (content resp : List Char),
    (validate_skill_md content = (1, none) ∨
      ∃ d, validate_skill_md content = (0, some d) ∧ d ≠ []) ∧
    (validate_reference_md content = (1, none) ∨
      ∃ d, validate_reference_md content = (0, some d) ∧ d ≠ []) ∧
    (validate_example_script pc content = (1, none) ∨
      ∃ d, validate_example_script pc content = (0, some d) ∧ d ≠ []) ∧
    ((validate_skill_md content).1 = 1 ↔ (validate_skill_md content).2 = none) ∧
    ((validate_reference_md content).1 = 1 ↔ (validate_reference_md content).2 = none) ∧
    ((validate_example_script pc content).1 = 1 ↔
      (validate_example_script pc content).2 = none) ∧
    (parse_skill pc resp).2.2 = parse_skill_contents resp ∧
    ((parse_skill pc resp).1 = 1 ↔ (parse_skill pc resp).2.1 = none) := by
  intro pc content resp
  refine ⟨validate_skill_md_shape content, validate_reference_md_shape content,
         validate_example_script_shape pc content,
         verdict_iff_of_shape (validate_skill_md_shape content),
         verdict_iff_of_shape (validate_reference_md_shape content),
         verdict_iff_of_shape (validate_example_script_shape pc content), ?_, ?_⟩
  · rcases parse_skill_shape pc resp with h | ⟨d, h, _⟩ <;> rw [h]
  · rcases parse_skill_shape pc resp with h | ⟨d, h, hd⟩ <;> rw [h] <;> simp

/-- C8: an empty (or all-whitespace, which Python truthiness also treats as
content and `strip()` empties) example script passes its validation — the
validator depends on nothing but the script itself, so sibling verdicts
are irrelevant; a non-empty script passes iff the Python parser accepts
it; and a syntax error produces a failing verdict whose diagnostic quotes
the parser's message. -/
theorem claim8_example_script : ∀ (pc : PyCheck) (content e : List Char),
    (pyStrip content = [] → validate_example_script pc content = (1, none)) ∧
    (pyStrip content ≠ [] →
      ((validate_example_script pc content).1 = 1 ↔ pc content = none)) ∧
    (pyStrip content ≠ [] → pc content = some e →
      validate_example_script pc content =
        (0, some (s ("Example script has SyntaxError: ") ++ e))) := by
  intro pc content e
  refine ⟨?_, ?_, ?_⟩
  · intro h; simp [validate_example_script, h]
  · intro h
    unfold validate_example_script
    rw [if_neg h]
    cases hpc : pc content <;> simp [hpc]
  · intro h hp; simp [validate_example_script, h, hp]

/-- C8 witness: the empty script passes under both a fully accepting and a
fully rejecting oracle; a non-empty script passes iff the oracle accepts
it; a rejected script yields the quoted SyntaxError message. -/
theorem claim8_witness :
    validate_example_script astOracle0 [] = (1, none) ∧
    validate_example_script astOracleBad [] = (1, none) ∧
    ((validate_example_script astOracle0 (s ("x"))).1 = 1 ↔ astOracle0 (s ("x")) = none) ∧
    validate_example_script astOracleBad (s ("x")) =
      (0, some (s ("Example script has SyntaxError: invalid syntax (<string>, line 1)"))) := by
  refine ⟨(claim8_example_script astOracle0 [] []).1 (by decide),
         (claim8_example_script astOracleBad [] []).1 (by decide),
         (claim8_example_script astOracle0 (s ("x")) []).2.1 (by decide), ?_⟩
  have h := (claim8_example_script astOracleBad (s ("x"))
      (s ("invalid syntax (<string>, line 1)"))).2.2 (by decide) rfl
  exact h.trans (by decide)

/-- C4 counterexample: a guide document in which every required heading
appears only as a level-2 (`##`) heading — so that no required section is
present as a level-1 heading — passes validation, refuting the claim
that the twelve headings are required *as level-1 headings*. -/
theorem claim4_counterexample :
    validate_skill_md docLevel2 = (1, none) ∧
    REQUIRED_SECTIONS.all (fun sec => !(hasLevel1Heading sec docLevel2)) = true := by
  exact ⟨by decide, by decide⟩

/-- C4 amended: the heading requirement actually enforced is the occurrence,
anywhere in the document, of a `#` followed by whitespace and the section
name (any heading level, even mid-line, qualifies); a document passing
the earlier checks whose first such missing section is `sec` fails
validation with a diagnostic naming that section. -/
theorem claim4_amended : ∀ (content fm sec : List Char),
    pyStrip content ≠ [] →
    fmExtract content = some fm →
    firstMissingKey REQUIRED_FRONTMATTER_KEYS fm = none →
    firstMissingSection REQUIRED_SECTIONS content = some sec →
    validate_skill_md content =
      (0, some (s ("SKILL.md is missing required section: \x27# ") ++ sec ++ s ("\x27"))) ∧
    hashSecSearch sec content = false ∧ sec ∈ REQUIRED_SECTIONS := by
  intro content fm sec h1 h2 h3 h4
  refine ⟨?_, firstMissingSection_spec REQUIRED_SECTIONS content sec h4⟩
  simp [validate_skill_md, h1, h2, h3, h4]

/-- C4 witness: claim4_amended evaluated on a document missing exactly the
section `Best Practices`. -/
theorem claim4_witness :
    validate_skill_md docNoBP =
      (0, some (s ("SKILL.md is missing required section: \x27# Best Practices\x27"))) ∧
    hashSecSearch (s ("Best Practices")) docNoBP = false ∧
    s ("Best Practices") ∈ REQUIRED_SECTIONS := by
  have h := claim4_amended docNoBP fmFull (s ("Best Practices"))
    (by decide) (by decide) (by decide) (by decide)
  exact ⟨h.1.trans (by decide), h.2.1, h.2.2⟩

/-- C5 counterexample: a guide document whose metadata block omits the key
`name` as a key:value line (it has a `tool_name:` line instead, which
contains the substring `name:`) passes validation in full, refuting the
claim that omitting a required key makes validation fail. -/
theorem claim5_counterexample :
    validate_skill_md docToolName = (1, none) ∧
    fmExtract docToolName = some fmToolName ∧
    hasKeyValueLine (s ("name")) fmToolName = false := by
  exact ⟨by decide, by decide, by decide⟩

/-- C5 amended: the document must open with a `---`-delimited block, and the
key requirement actually enforced is that the substring `key:` occur
anywhere in the block's text (a key:value line is sufficient but not
necessary); when the substring is absent for some key, validation fails
with a diagnostic naming the first such key, and a document that does not
open with the delimited block fails with the frontmatter diagnostic. -/
theorem claim5_amended :
    (∀ (content fm k : List Char),
      pyStrip content ≠ [] →
      fmExtract content = some fm →
      firstMissingKey REQUIRED_FRONTMATTER_KEYS fm = some k →
      validate_skill_md content =
        (0, some (s ("YAML frontmatter is missing required key: ") ++ k)) ∧
      containsSub (k ++ s (":")) fm = false ∧ k ∈ REQUIRED_FRONTMATTER_KEYS) ∧
    (∀ content : List Char,
      pyStrip content ≠ [] → fmExtract content = none →
      validate_skill_md content =
        (0, some (s ("SKILL.md is missing YAML frontmatter (--- delimiters)")))) := by
  constructor
  · intro content fm k h1 h2 h3
    refine ⟨?_, firstMissingKey_spec REQUIRED_FRONTMATTER_KEYS fm k h3⟩
    simp [validate_skill_md, h1, h2, h3]
  · intro content h1 h2
    simp [validate_skill_md, h1, h2]

/-- C5 witness: claim5_amended evaluated on a document whose block omits the
key `metadata` entirely, and on a document with no frontmatter block. -/
theorem claim5_witness :
    validate_skill_md docNoMeta =
      (0, some (s ("YAML frontmatter is missing required key: metadata"))) ∧
    containsSub (s ("metadata") ++ s (":")) fmNoMeta = false ∧
    validate_skill_md (s ("hello")) =
      (0, some (s ("SKILL.md is missing YAML frontmatter (--- delimiters)"))) := by
  have h1 := claim5_amended.1 docNoMeta fmNoMeta (s ("metadata"))
    (by decide) (by decide) (by decide)
  have h2 := claim5_amended.2 (s ("hello")) (by decide) (by decide)
  exact ⟨h1.1.trans (by decide), h1.2.1, h2⟩

lemma ltrim_cons_ne_ws {x : Char} (h : isPySpace x = false) (lit rest : List Char) :
    ltrim ((x :: lit) ++ rest) = (x :: lit) ++ rest := by
  rw [List.cons_append, ltrim_cons_of_not_ws h]

/-- C6 amended: for the example-script artifact, a completion wrapping the
code in a single fenced block and one leaving it bare extract the same
content, provided the code is already outer-trimmed and contains no
backquote (code containing its own fence text genuinely parses
differently); for the single-artifact source module, the fence is
mandatory — a completion with no fenced block fails with artifact
`None`. -/
theorem claim6_amended : ∀ (pc : PyCheck) (c resp : List Char),
    (containsSub (s ("```python\n")) resp = false →
      parse_mcpcode pc resp =
        (0, some (s ("There is no python code found in the gpt_response")), none)) ∧
    (ltrim c = c → rtrim c = c → btChar ∉ c →
      (parse_skill_contents (s ("===EXAMPLE_SCRIPT.py===\n") ++ c)).example_script = c ∧
      (parse_skill_contents
          (s ("===EXAMPLE_SCRIPT.py===\n```python\n") ++ c ++ s ("\n```"))).example_script = c) := by
  intro pc c resp
  constructor
  · intro h
    simp [parse_mcpcode, extractFence, afterSub_none_of_not_contains h]
  · intro hcl hcr hbt
    have hnofence : containsSub (s ("```python\n")) c = false := by
      cases hq : containsSub (s ("```python\n")) c with
      | true => exact absurd (containsSub_mem hq (by decide)) hbt
      | false => rfl
    constructor
    · by_cases hc0 : c = []
      · subst hc0; decide
      · have h1 : afterSub (s ("===EXAMPLE_SCRIPT.py==="))
            (s ("===EXAMPLE_SCRIPT.py===\n") ++ c) = some (s ("\n") ++ c) := by
          rw [show s ("===EXAMPLE_SCRIPT.py===\n") =
              s ("===EXAMPLE_SCRIPT.py===") ++ s ("\n") from by decide, List.append_assoc]
          exact afterSub_append_self _ _
        have h2 : pyStrip (s ("\n") ++ c) = c := by
          rw [show s ("\n") = ['\n'] from by decide, List.singleton_append]
          unfold pyStrip
          have hr : rtrim ('\n' :: c) = '\n' :: c := by
            have hx := rtrim_append (b := c) (by rw [hcr]; exact hc0) ['\n']
            rw [hcr] at hx
            rw [show ('\n' :: c : List Char) = ['\n'] ++ c from List.singleton_append.symm]
            exact hx
          rw [hr, ltrim_cons_of_ws (by decide) c, hcl]
        have h3 : extractFence c = none := by
          unfold extractFence
          rw [afterSub_none_of_not_contains hnofence]
        simp [parse_skill_contents, h1, h2, h3]
    · have h1 : afterSub (s ("===EXAMPLE_SCRIPT.py==="))
          (s ("===EXAMPLE_SCRIPT.py===\n```python\n") ++ (c ++ s ("\n```"))) =
          some (s ("\n```python\n") ++ (c ++ s ("\n```"))) := by
        have hh : s ("===EXAMPLE_SCRIPT.py===\n```python\n") ++ (c ++ s ("\n```")) =
            s ("===EXAMPLE_SCRIPT.py===") ++ (s ("\n```python\n") ++ (c ++ s ("\n```"))) := by
          rw [show s ("===EXAMPLE_SCRIPT.py===\n```python\n") =
              s ("===EXAMPLE_SCRIPT.py===") ++ s ("\n```python\n") from by decide]
          simp [List.append_assoc]
        rw [hh]
        exact afterSub_append_self _ _
      have h2 : pyStrip (s ("\n```python\n") ++ (c ++ s ("\n```"))) =
          s ("```python\n") ++ (c ++ s ("\n```")) := by
        unfold pyStrip
        have hr : rtrim (s ("\n```python\n") ++ (c ++ s ("\n```"))) =
            s ("\n```python\n") ++ (c ++ s ("\n```")) := by
          have hx := rtrim_append (show rtrim (s ("\n```")) ≠ [] from by decide)
              (s ("\n```python\n") ++ c)
          rw [show rtrim (s ("\n```")) = s ("\n```") from by decide] at hx
          rw [List.append_assoc] at hx
          exact hx
        rw [hr]
        have hcons : s ("\n```python\n") ++ (c ++ s ("\n```")) =
            '\n' :: (s ("```python\n") ++ (c ++ s ("\n```"))) := by
          rw [show s ("\n```python\n") = '\n' :: s ("```python\n") from by decide]
          rfl
        rw [hcons, ltrim_cons_of_ws (by decide)]
        rw [show s ("```python\n") = (btChar :: s ("``python\n") : List Char) from by decide]
        rw [ltrim_cons_ne_ws (by decide)]
      have h3 : extractFence (s ("```python\n") ++ (c ++ s ("\n```"))) = some c := by
        unfold extractFence
        rw [afterSub_append_self]
        rw [show s ("\n```") = ('\n' :: btChar :: s ("``") : List Char) from by decide]
        exact takeBeforeSub_append_self (by decide) hbt
      rw [show s ("===EXAMPLE_SCRIPT.py===\n```python\n") ++ c ++ s ("\n```") =
          s ("===EXAMPLE_SCRIPT.py===\n```python\n") ++ (c ++ s ("\n```")) from
          List.append_assoc _ _ _]
      simp [parse_skill_contents, h1, h2, h3]

/-- C6 witness: claim6_amended evaluated on the code `print(1)` and on a
completion with no fence. -/
theorem claim6_witness :
    parse_mcpcode astOracle0 (s ("no fence here")) =
      (0, some (s ("There is no python code found in the gpt_response")), none) ∧
    (parse_skill_contents (s ("===EXAMPLE_SCRIPT.py===\n") ++ s ("print(1)"))).example_script =
      s ("print(1)") ∧
    (parse_skill_contents
        (s ("===EXAMPLE_SCRIPT.py===\n```python\n") ++ s ("print(1)") ++ s ("\n```"))).example_script =
      s ("print(1)") := by
  have h := claim6_amended astOracle0 (s ("print(1)")) (s ("no fence here"))
  have h2 := h.2 (by decide) (by decide) (by decide)
  exact ⟨h.1 (by decide), h2.1, h2.2⟩

/-- C6 counterexample: for the single-artifact source module the two forms do
not parse identically — the bare completion `print(1)` yields no artifact
(`None`), while the fenced form yields the code — refuting the claim for
the source-module kind. -/
theorem claim6_counterexample :
    (parse_mcpcode astOracle0 (s ("print(1)"))).2.2 = none ∧
    (parse_mcpcode astOracle0 (s ("```python\nprint(1)\n```"))).2.2 = some (s ("print(1)")) ∧
    (none : Option (List Char)) ≠ some (s ("print(1)")) := by
  exact ⟨by decide, by decide, by decide⟩

/-- C10: when a completion contains the guide and example-script delimiters
but not the reference delimiter, the guide capture ends only at the
reference marker or end-of-response — so the extracted guide artifact is
the full remainder, containing the example-script delimiter and the
trailing text, while the same trailing text is simultaneously extracted
as the example-script artifact. -/
theorem claim10_tail_bleed : ∀ (mid tail : List Char),
    ltrim mid = mid →
    rtrim tail = tail →
    containsSub (s ("===REFERENCE.md==="))
      (mid ++ (s ("===EXAMPLE_SCRIPT.py===") ++ tail)) = false →
    afterSub (s ("===EXAMPLE_SCRIPT.py==="))
      (s ("===SKILL.md===") ++ (mid ++ (s ("===EXAMPLE_SCRIPT.py===") ++ tail))) = some tail →
    extractFence (pyStrip tail) = none →
    (parse_skill_contents
        (s ("===SKILL.md===") ++ (mid ++ (s ("===EXAMPLE_SCRIPT.py===") ++ tail)))).skill_md =
      mid ++ (s ("===EXAMPLE_SCRIPT.py===") ++ tail) ∧
    (parse_skill_contents
        (s ("===SKILL.md===") ++ (mid ++ (s ("===EXAMPLE_SCRIPT.py===") ++ tail)))).example_script =
      pyStrip tail ∧
    containsSub (s ("===EXAMPLE_SCRIPT.py==="))
      (mid ++ (s ("===EXAMPLE_SCRIPT.py===") ++ tail)) = true ∧
    containsSub (pyStrip tail) (mid ++ (s ("===EXAMPLE_SCRIPT.py===") ++ tail)) = true := by
  intro mid tail hml htr h2 h3 h4
  have ha1 : afterSub (s ("===SKILL.md==="))
      (s ("===SKILL.md===") ++ (mid ++ (s ("===EXAMPLE_SCRIPT.py===") ++ tail))) =
      some (mid ++ (s ("===EXAMPLE_SCRIPT.py===") ++ tail)) := afterSub_append_self _ _
  have ht1 : takeUntilSub (s ("===REFERENCE.md==="))
      (mid ++ (s ("===EXAMPLE_SCRIPT.py===") ++ tail)) =
      mid ++ (s ("===EXAMPLE_SCRIPT.py===") ++ tail) := takeUntilSub_eq_self h2
  have hp1 : pyStrip (mid ++ (s ("===EXAMPLE_SCRIPT.py===") ++ tail)) =
      mid ++ (s ("===EXAMPLE_SCRIPT.py===") ++ tail) := by
    rw [← List.append_assoc]
    exact pyStrip_three (by decide) (by decide) (by decide) hml htr
  refine ⟨?_, ?_, ?_, ?_⟩
  · simp [parse_skill_contents, extractSection, ha1, ht1, hp1]
  · simp [parse_skill_contents, h3, h4]
  · exact containsSub_pre_post mid _ tail
  · have htw : List.takeWhile isPySpace tail ++ ltrim tail = tail := by
      simp only [ltrim]
      exact List.takeWhile_append_dropWhile isPySpace tail
    have hps : pyStrip tail = ltrim tail := by
      unfold pyStrip
      rw [htr]
    rw [hps]
    have hdec : mid ++ (s ("===EXAMPLE_SCRIPT.py===") ++ tail) =
        (mid ++ (s ("===EXAMPLE_SCRIPT.py===") ++ List.takeWhile isPySpace tail)) ++
          (ltrim tail ++ []) := by
      simp [List.append_assoc, htw]
    exact containsSub_of_decomp _ [] hdec

/-- C10 witness: claim10_tail_bleed evaluated on a completion with guide body
`GUIDE`, trailing script text `print(1)`, and no reference delimiter. -/
theorem claim10_witness :
    (parse_skill_contents (s ("===SKILL.md===") ++
        (s ("GUIDE\n") ++ (s ("===EXAMPLE_SCRIPT.py===") ++ s ("\nprint(1)"))))).skill_md =
      s ("GUIDE\n===EXAMPLE_SCRIPT.py===\nprint(1)") ∧
    (parse_skill_contents (s ("===SKILL.md===") ++
        (s ("GUIDE\n") ++ (s ("===EXAMPLE_SCRIPT.py===") ++ s ("\nprint(1)"))))).example_script =
      s ("print(1)") ∧
    containsSub (s ("===EXAMPLE_SCRIPT.py==="))
      (s ("GUIDE\n") ++ (s ("===EXAMPLE_SCRIPT.py===") ++ s ("\nprint(1)"))) = true ∧
    containsSub (pyStrip (s ("\nprint(1)")))
      (s ("GUIDE\n") ++ (s ("===EXAMPLE_SCRIPT.py===") ++ s ("\nprint(1)"))) = true := by
  have h := claim10_tail_bleed (s ("GUIDE\n")) (s ("\nprint(1)"))
    (by decide) (by decide) (by decide) (by decide) (by decide)
  exact ⟨h.1.trans (by decide), h.2.1.trans (by decide), h.2.2.1, h.2.2.2⟩

/-- C3 amended: in the three-artifact flavor a failed attempt with an
all-empty artifact set restarts with the original prompt, a failed
attempt with any non-empty artifact sends the repair prompt built from
the current artifact set and the latest diagnostic, and the loop yields
a result only for an attempt whose verdict is ok.  In the single-artifact
flavor the restart condition is that the artifact is missing (`None`) —
an artifact equal to the empty string triggers a repair prompt instead —
and termination is likewise only by an ok verdict. -/
theorem claim3_amended :
    (∀ (pc : PyCheck) (author license tool help : List Char)
        (r : Nat × Option (List Char) × Contents) (resp : List Char)
        (rest : List (List Char)),
      (r.1 = 0 → anyTruthy r.2.2 = false →
        (skillLoopGo pc author license tool help r (resp :: rest)).1.head? =
          some (generate_prompt author license tool help)) ∧
      (r.1 = 0 → anyTruthy r.2.2 = true →
        (skillLoopGo pc author license tool help r (resp :: rest)).1.head? =
          some (refine_prompt tool r.2.2 (fmtErr r.2.1)))) ∧
    (∀ (pc : PyCheck) (author license tool help first : List Char)
        (rest : List (List Char)) (c : Contents),
      (convert_skill pc author license tool help first rest).2 = some c →
      ∃ resp, (resp = first ∨ resp ∈ rest) ∧
        (parse_skill pc resp).1 = 1 ∧ (parse_skill pc resp).2.2 = c) ∧
    (∀ (pc : PyCheck) (tool help : List Char)
        (r : Nat × Option (List Char) × Option (List Char)) (resp : List Char)
        (rest : List (List Char)),
      (r.1 = 0 → r.2.2 = none →
        (mcpLoopGo pc tool help r (resp :: rest)).1.head? =
          some (mcp_generate_prompt tool help)) ∧
      (∀ code, r.1 = 0 → r.2.2 = some code →
        (mcpLoopGo pc tool help r (resp :: rest)).1.head? =
          some (mcp_refine_prompt tool code (fmtErr r.2.1)))) ∧
    (∀ (pc : PyCheck) (tool help first : List Char) (rest : List (List Char))
        (code : List Char),
      (convert_mcptool pc tool help first rest).2 = some code →
      ∃ resp, (resp = first ∨ resp ∈ rest) ∧
        (parse_mcpcode pc resp).1 = 1 ∧ (parse_mcpcode pc resp).2.2 = some code) := by
  refine ⟨?_, ?_, ?_, ?_⟩
  · intro pc author license tool help r resp rest
    exact ⟨skillLoopGo_head_restart pc author license tool help r resp rest,
           skillLoopGo_head_refine pc author license tool help r resp rest⟩
  · intro pc author license tool help first rest c h
    simp only [convert_skill] at h
    rcases skillLoopGo_done pc author license tool help rest (parse_skill pc first) c h with
      ⟨h1, h2⟩ | ⟨resp, hm, h1, h2⟩
    · exact ⟨first, Or.inl rfl, (parse_skill_fst pc first).resolve_left h1, h2⟩
    · exact ⟨resp, Or.inr hm, (parse_skill_fst pc resp).resolve_left h1, h2⟩
  · intro pc tool help r resp rest
    refine ⟨mcpLoopGo_head_restart pc tool help r resp rest, ?_⟩
    intro code h0 hSome
    exact mcpLoopGo_head_refine pc tool help r resp rest code h0 hSome
  · intro pc tool help first rest code h
    simp only [convert_mcptool] at h
    rcases mcpLoopGo_done pc tool help rest (parse_mcpcode pc first) code h with
      ⟨h1, h2⟩ | ⟨resp, hm, h1, h2⟩
    · exact ⟨first, Or.inl rfl, (parse_mcpcode_fst pc first).resolve_left h1, h2⟩
    · exact ⟨resp, Or.inr hm, (parse_mcpcode_fst pc resp).resolve_left h1, h2⟩

/-- C3 witness: claim3_amended evaluated on concrete runs — an all-empty
failed parse restarts with the original prompt; a failed parse with a
non-empty guide artifact repairs; a fully valid completion terminates the
loop with an ok verdict; a fenceless completion restarts the MCP loop. -/
theorem claim3_witness :
    (skillLoopGo astOracle0 (s ("A")) (s ("L")) (s ("T")) (s ("H"))
        (parse_skill astOracle0 (s ("nothing"))) [s ("r2")]).1.head? =
      some (generate_prompt (s ("A")) (s ("L")) (s ("T")) (s ("H"))) ∧
    (skillLoopGo astOracle0 (s ("A")) (s ("L")) (s ("T")) (s ("H"))
        (parse_skill astOracle0 (s ("===SKILL.md===\nX"))) [s ("r2")]).1.head? =
      some (refine_prompt (s ("T")) (parse_skill astOracle0 (s ("===SKILL.md===\nX"))).2.2
        (fmtErr (parse_skill astOracle0 (s ("===SKILL.md===\nX"))).2.1)) ∧
    (∃ resp, (resp = respOk ∨ resp ∈ ([] : List (List Char))) ∧
      (parse_skill astOracle0 resp).1 = 1 ∧ (parse_skill astOracle0 resp).2.2 = contentsOk) ∧
    (mcpLoopGo astOracle0 (s ("T")) (s ("H"))
        (parse_mcpcode astOracle0 (s ("bare"))) [s ("r2")]).1.head? =
      some (mcp_generate_prompt (s ("T")) (s ("H"))) := by
  refine ⟨(claim3_amended.1 astOracle0 (s ("A")) (s ("L")) (s ("T")) (s ("H"))
      (parse_skill astOracle0 (s ("nothing"))) (s ("r2")) []).1 (by decide) (by decide),
    (claim3_amended.1 astOracle0 (s ("A")) (s ("L")) (s ("T")) (s ("H"))
      (parse_skill astOracle0 (s ("===SKILL.md===\nX"))) (s ("r2")) []).2
      (by decide) (by decide),
    claim3_amended.2.1 astOracle0 (s ("A")) (s ("L")) (s ("T")) (s ("H")) respOk []
      contentsOk (by decide),
    (claim3_amended.2.2.1 astOracle0 (s ("T")) (s ("H"))
      (parse_mcpcode astOracle0 (s ("bare"))) (s ("r2")) []).1 (by decide) (by decide)⟩

/-- C3 counterexample: in the single-artifact flavor, the completion
"```python\n\n```" parses to the *empty-string* artifact (every artifact
value of the produced set is empty) with a failing verdict, yet the next
attempt uses the repair prompt, not the original prompt — refuting the
restart condition as claimed for the single-artifact flavor. -/
theorem claim3_counterexample :
    parse_mcpcode astOracle0 (s ("```python\n\n```")) =
      (0, some (s ("Code is missing the @mcp.tool() decorator")), some []) ∧
    (mcpLoopGo astOracle0 (s ("t")) (s ("h"))
        (parse_mcpcode astOracle0 (s ("```python\n\n```"))) [s ("r")]).1.head? =
      some (mcp_refine_prompt (s ("t")) []
        (s ("Code is missing the @mcp.tool() decorator"))) ∧
    mcp_refine_prompt (s ("t")) [] (s ("Code is missing the @mcp.tool() decorator")) ≠
      mcp_generate_prompt (s ("t")) (s ("h")) := by
  exact ⟨by decide, by decide, by decide⟩

lemma containsSub_self (n : List Char) : containsSub n n = true := by
  cases n with
  | nil => rfl
  | cons x t => simp [containsSub, isPrefixOf_self]

lemma isPrefixOf_append_mono {n l : List Char} (h : n.isPrefixOf l = true)
    (b : List Char) : n.isPrefixOf (l ++ b) = true := by
  induction n generalizing l with
  | nil => simp [List.isPrefixOf]
  | cons x t ih =>
    cases l with
    | nil => simp [List.isPrefixOf] at h
    | cons y m =>
      simp only [List.cons_append, List.isPrefixOf, Bool.and_eq_true] at h ⊢
      exact ⟨h.1, ih h.2⟩

lemma containsSub_append_right {n a : List Char} (h : containsSub n a = true)
    (b : List Char) : containsSub n (a ++ b) = true := by
  induction a with
  | nil =>
    simp only [containsSub, List.isEmpty_iff] at h
    subst h
    rw [List.nil_append]
    exact containsSub_nil b
  | cons y m ih =>
    simp only [containsSub, Bool.or_eq_true] at h
    rw [List.cons_append]
    simp only [containsSub, Bool.or_eq_true]
    rcases h with h | h
    · exact Or.inl (isPrefixOf_append_mono h b)
    · exact Or.inr (ih h)

lemma containsSub_append_left {n b : List Char} (h : containsSub n b = true)
    (a : List Char) : containsSub n (a ++ b) = true := by
  induction a with
  | nil => rwa [List.nil_append]
  | cons x a2 ih =>
    rw [List.cons_append]
    simp only [containsSub, Bool.or_eq_true]
    exact Or.inr ih

/-- C7: the repair prompt of each flavor embeds every artifact of the current
artifact set — trivially so for an empty value, and verbatim for every
non-empty one, whether or not it is individually valid — together with
the single latest diagnostic; and a repair attempt's prompt is exactly
the repair prompt built from the latest parse result alone, so earlier
diagnostics never reach the backend. -/
theorem claim7_repair_prompt : ∀ (pc : PyCheck)
    (author license tool help e e2 code : List Char) (c : Contents)
    (r : Nat × Option (List Char) × Contents)
    (r2 : Nat × Option (List Char) × Option (List Char)) (resp : List Char)
    (rest : List (List Char)),
    containsSub c.skill_md (refine_prompt tool c e) = true ∧
    containsSub c.reference_md (refine_prompt tool c e) = true ∧
    containsSub c.example_script (refine_prompt tool c e) = true ∧
    containsSub e (refine_prompt tool c e) = true ∧
    containsSub code (mcp_refine_prompt tool code e2) = true ∧
    containsSub e2 (mcp_refine_prompt tool code e2) = true ∧
    (r.1 = 0 → anyTruthy r.2.2 = true →
      (skillLoopGo pc author license tool help r (resp :: rest)).1.head? =
        some (refine_prompt tool r.2.2 (fmtErr r.2.1))) ∧
    (∀ code2, r2.1 = 0 → r2.2.2 = some code2 →
      (mcpLoopGo pc tool help r2 (resp :: rest)).1.head? =
        some (mcp_refine_prompt tool code2 (fmtErr r2.2.1))) := by
  intro pc author license tool help e e2 code c r r2 resp rest
  refine ⟨?_, ?_, ?_, ?_, ?_, ?_, ?_, ?_⟩
  · by_cases h : c.skill_md = []
    · rw [h]; exact containsSub_nil _
    · unfold refine_prompt
      refine containsSub_append_right
        (containsSub_append_right (containsSub_append_right ?_ _) _) _
      refine containsSub_append_left ?_ _
      unfold refine_existing
      rw [if_neg h]
      refine containsSub_append_right ?_ _
      refine containsSub_append_right ?_ _
      exact containsSub_append_right (containsSub_append_left (containsSub_self _) _) _
  · by_cases h : c.reference_md = []
    · rw [h]; exact containsSub_nil _
    · unfold refine_prompt
      refine containsSub_append_right
        (containsSub_append_right (containsSub_append_right ?_ _) _) _
      refine containsSub_append_left ?_ _
      unfold refine_existing
      rw [if_neg h]
      refine containsSub_append_right ?_ _
      refine containsSub_append_left ?_ _
      exact containsSub_append_right (containsSub_append_left (containsSub_self _) _) _
  · by_cases h : c.example_script = []
    · rw [h]; exact containsSub_nil _
    · unfold refine_prompt
      refine containsSub_append_right
        (containsSub_append_right (containsSub_append_right ?_ _) _) _
      refine containsSub_append_left ?_ _
      unfold refine_existing
      rw [if_neg h]
      refine containsSub_append_left ?_ _
      exact containsSub_append_right (containsSub_append_left (containsSub_self _) _) _
  · unfold refine_prompt
    refine containsSub_append_right ?_ _
    exact containsSub_append_left (containsSub_self e) _
  · unfold mcp_refine_prompt
    refine containsSub_append_right
      (containsSub_append_right (containsSub_append_right ?_ _) _) _
    exact containsSub_append_left (containsSub_self code) _
  · unfold mcp_refine_prompt
    refine containsSub_append_right ?_ _
    exact containsSub_append_left (containsSub_self e2) _
  · exact skillLoopGo_head_refine pc author license tool help r resp rest
  · intro code2 h0 hSome
    exact mcpLoopGo_head_refine pc tool help r2 resp rest code2 h0 hSome

/-- C7 witness: claim7_repair_prompt evaluated on concrete failed parses with
non-empty artifacts, for both flavors. -/
theorem claim7_witness :
    containsSub (s ("diag")) (refine_prompt (s ("T"))
      { skill_md := s ("G"), reference_md := [], example_script := [] } (s ("diag"))) = true ∧
    (skillLoopGo astOracle0 (s ("A")) (s ("L")) (s ("T")) (s ("H"))
        (parse_skill astOracle0 (s ("===SKILL.md===\nY"))) [s ("n")]).1.head? =
      some (refine_prompt (s ("T")) (parse_skill astOracle0 (s ("===SKILL.md===\nY"))).2.2
        (fmtErr (parse_skill astOracle0 (s ("===SKILL.md===\nY"))).2.1)) ∧
    (mcpLoopGo astOracle0 (s ("T")) (s ("H"))
        (parse_mcpcode astOracle0 (s ("```python\nx=1\n```"))) [s ("n")]).1.head? =
      some (mcp_refine_prompt (s ("T")) (s ("x=1"))
        (fmtErr (parse_mcpcode astOracle0 (s ("```python\nx=1\n```"))).2.1)) := by
  have h := claim7_repair_prompt astOracle0 (s ("A")) (s ("L")) (s ("T")) (s ("H"))
    (s ("diag")) (s ("E2")) (s ("code"))
    { skill_md := s ("G"), reference_md := [], example_script := [] }
    (parse_skill astOracle0 (s ("===SKILL.md===\nY")))
    (parse_mcpcode astOracle0 (s ("```python\nx=1\n```"))) (s ("n")) []
  exact ⟨h.2.2.2.1, h.2.2.2.2.2.2.1 (by decide) (by decide),
    h.2.2.2.2.2.2.2 (s ("x=1")) (by decide) (by decide)⟩
